import Mathlib

/- Shallow embedding of src/eyecursorfinal.py (class EyeTrackerCursor).

   Real-valued quantities are modelled over ℚ.  The numpy square root
   (np.linalg.norm) is modelled by an explicit parameter sqrtf, instantiated
   at every concrete evaluation with ratSqrt, which is exact whenever the
   argument is a square of a rational; np.arctan2 is modelled by the
   parameter atanf, whose value no verified statement depends on.  numpy
   float division by zero yields inf/nan without raising an exception, so
   the Python feature extraction has no failure path; the embedding models
   division as the total rational division. -/

namespace EyeCursor

/-- Floor of the natural square root, written so that it reduces in the
kernel (Nat.sqrt is defined by well-founded recursion and does not). -/
def natSqrtFloor (n : Nat) : Nat :=
  ((List.range (n + 1)).filter (fun k => k * k ≤ n)).getLastD 0

/-- Rational stand-in for the floating-point square root: exact whenever the
argument is the square of a rational written in lowest terms. -/
def ratSqrt (q : ℚ) : ℚ := (natSqrtFloor q.num.toNat : ℚ) / (natSqrtFloor q.den : ℚ)

/-- Stand-in instantiation for np.arctan2 used only to close concrete
evaluations; no claim inspects the head-pose angles, and the general theorems
quantify over an arbitrary atanf. -/
def atan2Q (_y _x : ℚ) : ℚ := 0

/-- One mediapipe landmark, with the fields x, y, z that the code reads. -/
structure Landmark where
  x : ℚ
  y : ℚ
  z : ℚ
deriving DecidableEq

/-- self.LEFT_EYE from the constructor. -/
def LEFT_EYE : List Nat := [362, 382, 381, 380, 374, 373, 390, 249, 263, 466, 388, 387, 386, 385, 384, 398]

/-- self.RIGHT_EYE from the constructor. -/
def RIGHT_EYE : List Nat := [33, 7, 163, 144, 145, 153, 154, 155, 133, 173, 157, 158, 159, 160, 161, 246]

/-- self.LEFT_IRIS from the constructor. -/
def LEFT_IRIS : List Nat := [474, 475, 476, 477]

/-- self.RIGHT_IRIS from the constructor. -/
def RIGHT_IRIS : List Nat := [469, 470, 471, 472]

/-- np.linalg.norm of the difference of two 2-D points. -/
def dist2 (sqrtf : ℚ → ℚ) (p q : ℚ × ℚ) : ℚ :=
  sqrtf ((p.1 - q.1) ^ 2 + (p.2 - q.2) ^ 2)

/-- np.linalg.norm of the difference of two 3-D points. -/
def dist3 (sqrtf : ℚ → ℚ) (p q : ℚ × ℚ × ℚ) : ℚ :=
  sqrtf ((p.1 - q.1) ^ 2 + (p.2.1 - q.2.1) ^ 2 + (p.2.2 - q.2.2) ^ 2)

/-- calculate_eye_aspect_ratio (lines 103-115): three vertical distances over
three times the horizontal distance.  e gives the first nine contour points of
one eye (the call sites pass eye_landmarks[:9]). -/
def calculate_eye_aspect_ratio (sqrtf : ℚ → ℚ) (e : Nat → ℚ × ℚ) : ℚ :=
  let v1 := dist2 sqrtf (e 1) (e 5)
  let v2 := dist2 sqrtf (e 2) (e 4)
  let v3 := dist2 sqrtf (e 3) (e 7)
  let h := dist2 sqrtf (e 0) (e 8)
  (v1 + v2 + v3) / (3 * h)

/-- np.mean of a list of 2-D points, componentwise. -/
def meanPts (ps : List (ℚ × ℚ)) : ℚ × ℚ :=
  ((ps.map Prod.fst).sum / (ps.length : ℚ), (ps.map Prod.snd).sum / (ps.length : ℚ))

/-- The 2-D view (l.x, l.y) of a landmark. -/
def pt2 (l : Landmark) : ℚ × ℚ := (l.x, l.y)

/-- The 3-D view (l.x, l.y, l.z) of a landmark. -/
def pt3 (l : Landmark) : ℚ × ℚ × ℚ := (l.x, l.y, l.z)

/-- extract_eye_features (lines 117-170): the 21-entry feature vector, in the
exact np.concatenate order of the source.  Indices: 0-1 left eye center,
2-3 right eye center, 4-5 left iris mean, 6-7 right iris mean, 8 left EAR,
9 right EAR, 10-11 iris-to-corner distances, 12-13 nose tip, 14-15 chin,
16 head pitch, 17 head yaw, 18-19 normalized iris offsets, 20 face width. -/
def extract_eye_features (sqrtf : ℚ → ℚ) (atanf : ℚ → ℚ → ℚ) (L : Nat → Landmark) : List ℚ :=
  let left_eye_landmarks : Nat → ℚ × ℚ := fun i => pt2 (L (LEFT_EYE.getD i 0))
  let right_eye_landmarks : Nat → ℚ × ℚ := fun i => pt2 (L (RIGHT_EYE.getD i 0))
  let left_iris : List (ℚ × ℚ) := LEFT_IRIS.map (fun i => pt2 (L i))
  let right_iris : List (ℚ × ℚ) := RIGHT_IRIS.map (fun i => pt2 (L i))
  let left_eye_center := meanPts left_iris
  let right_eye_center := meanPts right_iris
  let left_ear := calculate_eye_aspect_ratio sqrtf left_eye_landmarks
  let right_ear := calculate_eye_aspect_ratio sqrtf right_eye_landmarks
  let left_iris_to_corner := dist2 sqrtf left_eye_center (left_eye_landmarks 0)
  let right_iris_to_corner := dist2 sqrtf right_eye_center (right_eye_landmarks 0)
  let nose_tip := pt3 (L 1)
  let chin := pt3 (L 199)
  let left_eye_left := pt3 (L (LEFT_EYE.getD 0 0))
  let right_eye_right := pt3 (L (RIGHT_EYE.getD 8 0))
  let head_pitch := atanf (chin.2.1 - nose_tip.2.1) (chin.2.2 - nose_tip.2.2)
  let head_yaw := atanf (right_eye_right.1 - left_eye_left.1) (right_eye_right.2.2 - left_eye_left.2.2)
  let face_width := dist3 sqrtf right_eye_right left_eye_left
  let left_iris_rel_x := (left_eye_center.1 - (left_eye_landmarks 0).1) / face_width
  let right_iris_rel_x := (right_eye_center.1 - (right_eye_landmarks 0).1) / face_width
  [left_eye_center.1, left_eye_center.2,
   right_eye_center.1, right_eye_center.2,
   (meanPts left_iris).1, (meanPts left_iris).2,
   (meanPts right_iris).1, (meanPts right_iris).2,
   left_ear, right_ear,
   left_iris_to_corner, right_iris_to_corner,
   (L 1).x, (L 1).y,
   (L 199).x, (L 199).y,
   head_pitch, head_yaw,
   left_iris_rel_x, right_iris_rel_x,
   face_width]

/-- The per-frame feature collection shared by the calibration loop
(lines 235-248) and run (lines 740-742): a frame where the detector produced
no landmarks is skipped; every frame with landmarks yields
extract_eye_features, appended unconditionally. -/
def collectFrames (sqrtf : ℚ → ℚ) (atanf : ℚ → ℚ → ℚ)
    (frames : List (Option (Nat → Landmark))) : List (List ℚ) :=
  frames.filterMap (fun f => f.map (extract_eye_features sqrtf atanf))

/-- Concrete landmark frame used to evaluate the feature vector: the left-eye
contour points are placed so that all the distances entering the left EAR are
exact (v1 = 4, v2 = 2, v3 = 3, h = 3, so left EAR = 1), and the chin landmark
199 has y-coordinate 7.  All other landmarks sit at the origin. -/
def frameA : Nat → Landmark := fun i =>
  if i = 382 then ⟨1, 0, 0⟩ else
  if i = 381 then ⟨2, 0, 0⟩ else
  if i = 380 then ⟨1, 1, 0⟩ else
  if i = 374 then ⟨2, 2, 0⟩ else
  if i = 373 then ⟨1, 4, 0⟩ else
  if i = 249 then ⟨1, 4, 0⟩ else
  if i = 263 then ⟨3, 0, 0⟩ else
  if i = 199 then ⟨0, 7, 0⟩ else ⟨0, 0, 0⟩

/-- Concrete degenerate landmark frame: every landmark is at the origin, so
the horizontal eye widths and the face width are all exactly zero. -/
def frameDeg : Nat → Landmark := fun _ => ⟨0, 0, 0⟩

/-- Python int(), truncation toward zero, on a rational. -/
def pyInt (q : ℚ) : Int := if 0 ≤ q then Int.floor q else Int.ceil q

/-- The x_points grid list from calibrate (lines 177-182): fixed fractions of
the screen width. -/
def x_points (w : ℚ) : List ℚ :=
  [w * 0.1, w * 0.2, w * 0.3, w * 0.4, w * 0.5,
   w * 0.6, w * 0.7, w * 0.8, w * 0.9, w * 0.95]

/-- The y_points grid list from calibrate (lines 183-188).  The first nine
entries are fractions of the screen height; the last entry in the source is
screen_width * 0.95 (not screen_height), reproduced here verbatim. -/
def y_points (w h : ℚ) : List ℚ :=
  [h * 0.1, h * 0.2, h * 0.3, h * 0.4, h * 0.5,
   h * 0.6, h * 0.7, h * 0.8, h * 0.9, w * 0.95]

/-- The nested loop of calibrate (lines 190-194) that builds
self.calibration_points: every (x, y) product pair in order, appended while
the list is shorter than num_points; this equals taking the first num_points
pairs of the product. -/
def calibration_points (w h : ℚ) (num_points : Nat) : List (Int × Int) :=
  ((x_points w).flatMap (fun x => (y_points w h).map (fun y => (pyInt x, pyInt y)))).take num_points

/-- np.median of a list: middle element of the sorted list, or the mean of
the two middle elements for even length. -/
def medianQ (l : List ℚ) : ℚ :=
  let s := l.mergeSort (fun a b => decide (a ≤ b))
  let n := s.length
  if n = 0 then 0
  else if n % 2 = 1 then s.getD (n / 2) 0
  else (s.getD (n / 2 - 1) 0 + s.getD (n / 2) 0) / 2

/-- Column j of a list of feature vectors (row-major 2-D array view). -/
def columnOf (X : List (List ℚ)) (j : Nat) : List ℚ := X.map (fun v => v.getD j 0)

/-- Number of feature dimensions of a collected batch (21 for every vector
produced by extract_eye_features). -/
def featureDim (X : List (List ℚ)) : Nat := (X.headD []).length

/-- np.median(point_data, axis=0): per-dimension median (line 266). -/
def medianFeatures (X : List (List ℚ)) : List ℚ :=
  (List.range (featureDim X)).map (fun j => medianQ (columnOf X j))

/-- np.sum((v - m)**2): squared euclidean distance of a sample to the
per-dimension median (line 267). -/
def sqDistTo (m v : List ℚ) : ℚ :=
  ((List.range m.length).map (fun j => (v.getD j 0 - m.getD j 0) ^ 2)).sum

/-- np.argsort: indices of the list sorted by value.  The default numpy sort is
not stable on ties; this uses a stable mergeSort, which agrees with numpy on
the distance lists considered by the claims (tie order is never observed). -/
def argsortQ (l : List ℚ) : List Nat :=
  (((List.range l.length).map (fun i => (i, l.getD i 0))).mergeSort
      (fun a b => decide (a.2 ≤ b.2))).map Prod.fst

/-- Computes np.mean(X, axis=0): per-dimension mean of a batch. -/
def meanFeatures (X : List (List ℚ)) : List ℚ :=
  (List.range (featureDim X)).map (fun j => (columnOf X j).sum / (X.length : ℚ))

/-- The pure per-target decision of calibrate (lines 264-294): with strictly
more than 10 collected feature vectors the target yields one averaged sample
(per-dimension median, squared distances, keep the int(n * 0.8)
lowest-distance samples, average them); otherwise the target is marked failed
and contributes nothing. -/
def processPoint (point_data : List (List ℚ)) : Option (List ℚ) :=
  if point_data.length > 10 then
    let med := medianFeatures point_data
    let distances := point_data.map (fun v => sqDistTo med v)
    let keep := (argsortQ distances).take (pyInt ((distances.length : ℚ) * 0.8)).toNat
    let filtered := keep.map (fun i => point_data.getD i [])
    some (meanFeatures filtered)
  else none

/-- One fitted GradientBoostingRegressor.  The ensemble internals are opaque
machine learning outside the shallow embedding; a fitted model is recorded as
the (scaled training matrix, target vector) snapshot it was fit from, which is
what the claims about fitting and replacement observe. -/
structure FittedReg where
  X : List (List ℚ)
  y : List ℚ
deriving DecidableEq

/-- sklearn StandardScaler fit: per-dimension (mean, scale) with
scale = sqrt(population variance), a zero scale being replaced by 1. -/
def fitScaler (sqrtf : ℚ → ℚ) (X : List (List ℚ)) : List (ℚ × ℚ) :=
  (List.range (featureDim X)).map (fun j =>
    let c := columnOf X j
    let m := c.sum / (c.length : ℚ)
    let v := (c.map (fun x => (x - m) ^ 2)).sum / (c.length : ℚ)
    (m, if sqrtf v = 0 then 1 else sqrtf v))

/-- StandardScaler transform of one feature vector. -/
def scalerTransform (sc : List (ℚ × ℚ)) (v : List ℚ) : List ℚ :=
  (List.range sc.length).map (fun j =>
    (v.getD j 0 - (sc.getD j (0, 1)).1) / (sc.getD j (0, 1)).2)

/-- The model-holding part of the tracker state: self.model_x, self.model_y
and self.scaler, with none meaning not fitted. -/
structure TrackerModel where
  model_x : Option FittedReg
  model_y : Option FittedReg
  scaler : Option (List (ℚ × ℚ))
deriving DecidableEq

/-- The model-fitting tail of calibrate (lines 298-330): with at least 6
collected point-samples the scaler is fit over all feature vectors, the data
standardized and both regressors fit from that snapshot, returning True;
otherwise calibration fails as a whole, returning False and leaving every
previously fitted model and the scaler untouched. -/
def calibrateFinish (sqrtf : ℚ → ℚ) (calibration_data : List (List ℚ × (ℚ × ℚ)))
    (st : TrackerModel) : TrackerModel × Bool :=
  if calibration_data.length ≥ 6 then
    let X := calibration_data.map Prod.fst
    let y_x := calibration_data.map (fun d => d.2.1)
    let y_y := calibration_data.map (fun d => d.2.2)
    let sc := fitScaler sqrtf X
    let X_scaled := X.map (scalerTransform sc)
    ({ model_x := some ⟨X_scaled, y_x⟩, model_y := some ⟨X_scaled, y_y⟩,
       scaler := some sc }, true)
  else (st, false)

/-- The normalized edge distance of smooth_movement (lines 687-690):
distance to the nearer screen edge per axis, each divided by half the
respective screen dimension, then the minimum of the two axes.  The source
applies no clamping. -/
def edge_distance (w h x_pred y_pred : ℚ) : ℚ :=
  min (min x_pred (w - x_pred) / (w / 2)) (min y_pred (h - y_pred) / (h / 2))

/-- smooth_movement (lines 681-702) as a function of the screen size, the
smoothing factor, the stored previous position (none before the first call)
and the raw prediction; returns (returned position, new stored position). -/
def smooth_movement (w h smoothing_factor : ℚ) (prev : Option (ℚ × ℚ))
    (x_pred y_pred : ℚ) : (ℚ × ℚ) × (ℚ × ℚ) :=
  match prev with
  | none => ((x_pred, y_pred), (x_pred, y_pred))
  | some (prev_x, prev_y) =>
    let adjusted_smoothing := smoothing_factor * edge_distance w h x_pred y_pred
    let smooth_x := prev_x * adjusted_smoothing + x_pred * (1 - adjusted_smoothing)
    let smooth_y := prev_y * adjusted_smoothing + y_pred * (1 - adjusted_smoothing)
    ((smooth_x, smooth_y), (smooth_x, smooth_y))

/-- The four interaction modes. -/
inductive Mode where
  | cursor
  | scroll
  | click
  | drag
deriving DecidableEq

/-- The cyclic successor in switch_mode (lines 371-375):
cursor, scroll, click, drag, wrapping. -/
def next_mode : Mode → Mode
  | .cursor => .scroll
  | .scroll => .click
  | .click => .drag
  | .drag => .cursor

/-- The per-mode cursor speed constants set by switch_mode (lines 377-384). -/
def mode_speed : Mode → ℚ
  | .cursor => 0.05
  | .scroll => 0.02
  | .click => 0.04
  | .drag => 0.03

/-- The discrete events returned by handle_blink; mode_switch m stands for
the string mode_switch_(name of m). -/
inductive BlinkEvent where
  | click
  | drag_toggle
  | right_click
  | mode_switch (m : Mode)
deriving DecidableEq

/-- The state read and written by handle_blink: configuration attributes and
mutable fields of self. -/
structure BlinkState where
  blink_threshold : ℚ
  blink_cooldown : ℚ
  long_blink_threshold : ℚ
  blink_relative_mode : Bool
  blink_relative_threshold : ℚ
  blink_start_time : Option ℚ
  last_blink_time : ℚ
  ear_history : List ℚ
  mode : Mode
  cursor_speed : ℚ
  dragging : Bool
deriving DecidableEq

/-- The rolling-history update of handle_blink (lines 611-613): append the
average EAR, then pop the oldest entry if the length exceeds 30. -/
def updateHistory (hist : List ℚ) (avg : ℚ) : List ℚ :=
  let h1 := hist ++ [avg]
  if h1.length > 30 then h1.drop 1 else h1

/-- np.percentile(l, 80) with the default linear interpolation: on the sorted
list, rank = (n - 1) * 80 / 100, and the value interpolates between the
entries at floor(rank) and floor(rank) + 1. -/
def percentile80 (l : List ℚ) : ℚ :=
  let s := l.mergeSort (fun a b => decide (a ≤ b))
  let n := s.length
  if n = 0 then 0
  else
    let rank : ℚ := ((n : ℚ) - 1) * 80 / 100
    let i : Nat := (Int.floor rank).toNat
    let frac : ℚ := rank - (i : ℚ)
    s.getD i 0 + frac * (s.getD (i + 1) (s.getD i 0) - s.getD i 0)

/-- The history used for blink detection this frame: in relative mode the
updated rolling history, otherwise the untouched one. -/
def newHistory (st : BlinkState) (avg : ℚ) : List ℚ :=
  if st.blink_relative_mode then updateHistory st.ear_history avg else st.ear_history

/-- The is_blink decision of handle_blink (lines 607-623): in relative mode,
false while the history holds fewer than 10 samples, otherwise a comparison
against the 80th percentile baseline scaled by (1 - relative threshold); in
absolute mode a comparison against the fixed threshold. -/
def isBlinkOf (st : BlinkState) (avg : ℚ) (hist : List ℚ) : Bool :=
  if st.blink_relative_mode then
    if 10 ≤ hist.length then
      decide (avg < percentile80 hist * (1 - st.blink_relative_threshold))
    else false
  else decide (avg < st.blink_threshold)

/-- handle_blink (lines 601-657).  Returns the emitted event (none for no
event) and the updated state.  The branch structure follows the source: a
blink start records the timestamp and emits nothing; a blink end clears the
start timestamp unconditionally, then only if the time since
last_blink_time exceeds the cooldown updates last_blink_time (whether or not
an event is then emitted) and classifies the duration. -/
def handle_blink (st : BlinkState) (current_time left_ear right_ear : ℚ) :
    Option BlinkEvent × BlinkState :=
  let avg_ear := (left_ear + right_ear) / 2
  let st1 := { st with ear_history := newHistory st avg_ear }
  let is_blink := isBlinkOf st avg_ear (newHistory st avg_ear)
  if is_blink = true ∧ st1.blink_start_time = none then
    (none, { st1 with blink_start_time := some current_time })
  else if is_blink = false then
    match st1.blink_start_time with
    | some start_time =>
      let blink_duration := current_time - start_time
      let st2 := { st1 with blink_start_time := none }
      if st2.blink_cooldown < current_time - st2.last_blink_time then
        let st3 := { st2 with last_blink_time := current_time }
        if blink_duration < 0.3 then
          match st3.mode with
          | .cursor => (some .click, st3)
          | .click => (some .click, st3)
          | .drag => (some .drag_toggle, { st3 with dragging := !st3.dragging })
          | .scroll => (none, st3)
        else if 0.3 ≤ blink_duration ∧ blink_duration < st3.long_blink_threshold then
          match st3.mode with
          | .cursor => (some .right_click, st3)
          | .click => (some .right_click, st3)
          | _ => (none, st3)
        else
          let nm := next_mode st3.mode
          (some (.mode_switch nm), { st3 with mode := nm, cursor_speed := mode_speed nm })
      else (none, st2)
    | none => (none, st1)
  else (none, st1)

/-- handle_scroll (lines 659-679): active only in scroll mode, deadzone of
fractional width 0.3 centered on mid-height, signed amount
int(20 * distance * 0.5) outside the deadzone, 0 otherwise. -/
def handle_scroll (mode : Mode) (screen_height : ℚ) (y_position : ℚ) : Int :=
  if mode = .scroll then
    let center_region : ℚ := 0.3
    let scroll_speed_factor : ℚ := 0.5
    let normalized_y := y_position / screen_height
    if normalized_y < 0.5 - center_region / 2 then
      let distance_from_center := (0.5 - center_region / 2) - normalized_y
      pyInt (20 * distance_from_center * scroll_speed_factor)
    else if normalized_y > 0.5 + center_region / 2 then
      let distance_from_center := normalized_y - (0.5 + center_region / 2)
      pyInt (-20 * distance_from_center * scroll_speed_factor)
    else 0
  else 0

/-- Concrete blink state in absolute mode with the default configuration
(threshold 0.2, cooldown 0.05, long-blink threshold 1.0, cursor mode), in the
middle of a blink that began at time 10. -/
def stW : BlinkState :=
  { blink_threshold := 0.2, blink_cooldown := 0.05, long_blink_threshold := 1,
    blink_relative_mode := false, blink_relative_threshold := 0.2,
    blink_start_time := some 10, last_blink_time := 0, ear_history := [],
    mode := .cursor, cursor_speed := 0.05, dragging := false }

/-- Concrete blink state in drag mode, mid-blink since time 9.7, with the
default configuration and no previously accepted event (last_blink_time 0). -/
def st8a : BlinkState :=
  { blink_threshold := 0.2, blink_cooldown := 0.05, long_blink_threshold := 1,
    blink_relative_mode := false, blink_relative_threshold := 0.2,
    blink_start_time := some (97 / 10), last_blink_time := 0, ear_history := [],
    mode := .drag, cursor_speed := 0.03, dragging := false }

/-- st8a after the blink end at time 10 (medium blink in drag mode: no event,
but last_blink_time was advanced to 10). -/
def st8b : BlinkState := { st8a with blink_start_time := none, last_blink_time := 10 }

/-- st8b after a new blink begins at time 10.01. -/
def st8c : BlinkState := { st8b with blink_start_time := some (1001 / 100) }

/-- Concrete blink state in relative mode whose rolling history is full
(30 entries), used to exercise the capacity invariant. -/
def st9 : BlinkState :=
  { blink_threshold := 0.2, blink_cooldown := 0.05, long_blink_threshold := 1,
    blink_relative_mode := true, blink_relative_threshold := 0.2,
    blink_start_time := none, last_blink_time := 0,
    ear_history := List.replicate 30 (3 / 10),
    mode := .cursor, cursor_speed := 0.05, dragging := false }

/-- Whatever branch handle_blink takes, the stored EAR history of the
resulting state is exactly the per-frame updated history. -/
lemma handle_blink_ear_history (st : BlinkState) (t l r : ℚ) :
    (handle_blink st t l r).2.ear_history = newHistory st ((l + r) / 2) := by
  simp only [handle_blink]
  repeat' split <;> try rfl

/-- The rolling history update keeps the length at most 30. -/
lemma updateHistory_length_le (hist : List ℚ) (avg : ℚ) (hcap : hist.length ≤ 30) :
    (updateHistory hist avg).length ≤ 30 := by
  simp only [updateHistory, List.length_append, List.length_cons, List.length_nil]
  split <;> simp <;> omega

/-- On a full history the update evicts exactly the oldest entry. -/
lemma updateHistory_overflow (hist : List ℚ) (avg : ℚ) (h30 : hist.length = 30) :
    updateHistory hist avg = hist.drop 1 ++ [avg] := by
  simp only [updateHistory]
  rw [if_pos (by simp [h30])]
  exact List.drop_append_of_le_length (by omega)

/-- Claim C1.  The blink handler is fed the feature-vector entries at the
fixed negative indices -6 and -5 (positions 21 - 6 and 21 - 5) as left and
right EAR.  In the 21-entry layout produced by extract_eye_features those
positions hold the chin y-coordinate and the head-pitch angle, for every
landmark frame and any square-root or arctangent model; the EAR that
extract_eye_features actually computed sits at index 8.  On the concrete
frame frameA the value passed as left EAR is 7 (the chin y) while the
computed left EAR is 1, so the two differ. -/
theorem C1_blink_inputs_are_chin_y_and_head_pitch :
    (∀ (sqrtf : ℚ → ℚ) (atanf : ℚ → ℚ → ℚ) (L : Nat → Landmark),
        (extract_eye_features sqrtf atanf L).getD (21 - 6) 0 = (L 199).y ∧
        (extract_eye_features sqrtf atanf L).getD (21 - 5) 0
          = atanf ((L 199).y - (L 1).y) ((L 199).z - (L 1).z)) ∧
    (extract_eye_features ratSqrt atan2Q frameA).getD 8 0
        = calculate_eye_aspect_ratio ratSqrt (fun i => pt2 (frameA (LEFT_EYE.getD i 0))) ∧
    (extract_eye_features ratSqrt atan2Q frameA).getD (21 - 6) 0 = 7 ∧
    (extract_eye_features ratSqrt atan2Q frameA).getD 8 0 = 1 ∧
    (extract_eye_features ratSqrt atan2Q frameA).getD (21 - 6) 0
        ≠ (extract_eye_features ratSqrt atan2Q frameA).getD 8 0 := by
  have h9 : natSqrtFloor 9 = 3 := by decide
  have h16 : natSqrtFloor 16 = 4 := by decide
  have h4 : natSqrtFloor 4 = 2 := by decide
  have h1 : natSqrtFloor 1 = 1 := by decide
  have hear : (extract_eye_features ratSqrt atan2Q frameA).getD 8 0 = 1 := by
    norm_num [extract_eye_features, frameA, LEFT_EYE, RIGHT_EYE, LEFT_IRIS, RIGHT_IRIS,
      meanPts, pt2, pt3, dist2, dist3, calculate_eye_aspect_ratio, ratSqrt, Int.toNat,
      h9, h16, h4, h1, atan2Q]
  have hchin : (extract_eye_features ratSqrt atan2Q frameA).getD (21 - 6) 0 = 7 := by
    norm_num [extract_eye_features, frameA, LEFT_EYE, meanPts, pt2, pt3]
  refine ⟨fun sqrtf atanf L => ⟨rfl, rfl⟩, rfl, hchin, hear, ?_⟩
  rw [hchin, hear]
  norm_num

/-- Claim C2, counterexample.  On the fully degenerate frame frameDeg every
denominator of the feature computation is zero (the horizontal eye width and
the face width both evaluate to 0), yet feature extraction does not fail: the
frame still contributes a full 21-entry FeatureVector to the collected data
instead of being skipped. -/
theorem C2_degenerate_frame_not_skipped :
    dist2 ratSqrt (pt2 (frameDeg (LEFT_EYE.getD 0 0))) (pt2 (frameDeg (LEFT_EYE.getD 8 0))) = 0 ∧
    dist3 ratSqrt (pt3 (frameDeg (RIGHT_EYE.getD 8 0))) (pt3 (frameDeg (LEFT_EYE.getD 0 0))) = 0 ∧
    collectFrames ratSqrt atan2Q [some frameDeg]
      = [extract_eye_features ratSqrt atan2Q frameDeg] ∧
    (extract_eye_features ratSqrt atan2Q frameDeg).length = 21 := by
  have h0 : natSqrtFloor 0 = 0 := by decide
  refine ⟨?_, ?_, rfl, rfl⟩ <;>
    norm_num [dist2, dist3, pt2, pt3, frameDeg, ratSqrt, Int.toNat, h0]

/-- Claim C2, amended.  Feature extraction is total: every landmark frame,
degenerate denominators included, yields a 21-entry FeatureVector, and every
frame in which the detector produced landmarks contributes that vector to the
collected data (no skip path exists for degenerate geometry; in the floating
point source the zero divisions produce non-finite values without raising). -/
theorem C2_feature_extraction_total (sqrtf : ℚ → ℚ) (atanf : ℚ → ℚ → ℚ)
    (frames : List (Option (Nat → Landmark))) (L : Nat → Landmark)
    (hmem : some L ∈ frames) :
    (extract_eye_features sqrtf atanf L).length = 21 ∧
    extract_eye_features sqrtf atanf L ∈ collectFrames sqrtf atanf frames := by
  refine ⟨rfl, ?_⟩
  exact List.mem_filterMap.mpr ⟨some L, hmem, rfl⟩

/-- Claim C2, witness: the totality theorem applied to the degenerate frame. -/
theorem C2_feature_extraction_total_witness :
    (extract_eye_features ratSqrt atan2Q frameDeg).length = 21 ∧
    extract_eye_features ratSqrt atan2Q frameDeg ∈ collectFrames ratSqrt atan2Q [some frameDeg] :=
  C2_feature_extraction_total ratSqrt atan2Q [some frameDeg] frameDeg (by simp)

/-- Claim C3.  With exactly 5 point-samples the fitting tail of calibrate
fails as a whole, leaving the entire model state (both regressors and the
scaler) unchanged; with exactly 6 it returns success and installs both
regressors and the scaler, all fit from the same snapshot of the collected
calibration data. -/
theorem C3_six_point_samples_fit_five_fail (sqrtf : ℚ → ℚ) (st : TrackerModel)
    (d5 d6 : List (List ℚ × (ℚ × ℚ))) (h5 : d5.length = 5) (h6 : d6.length = 6) :
    calibrateFinish sqrtf d5 st = (st, false) ∧
    (calibrateFinish sqrtf d6 st).2 = true ∧
    (calibrateFinish sqrtf d6 st).1.model_x
      = some ⟨(d6.map Prod.fst).map (scalerTransform (fitScaler sqrtf (d6.map Prod.fst))),
              d6.map (fun d => d.2.1)⟩ ∧
    (calibrateFinish sqrtf d6 st).1.model_y
      = some ⟨(d6.map Prod.fst).map (scalerTransform (fitScaler sqrtf (d6.map Prod.fst))),
              d6.map (fun d => d.2.2)⟩ ∧
    (calibrateFinish sqrtf d6 st).1.scaler = some (fitScaler sqrtf (d6.map Prod.fst)) := by
  have hn5 : ¬(d5.length ≥ 6) := by omega
  have hy6 : d6.length ≥ 6 := by omega
  refine ⟨by simp [calibrateFinish, hn5], ?_, ?_, ?_, ?_⟩ <;> simp [calibrateFinish, hy6]

/-- Claim C3, witness: the theorem applied to concrete collections of 5 and 6
point-samples and the empty model state. -/
theorem C3_six_point_samples_fit_five_fail_witness :
    calibrateFinish ratSqrt (List.replicate 5 ([], (0, 0))) ⟨none, none, none⟩
      = (⟨none, none, none⟩, false) ∧
    (calibrateFinish ratSqrt (List.replicate 6 ([], (0, 0))) ⟨none, none, none⟩).2 = true ∧
    (calibrateFinish ratSqrt (List.replicate 6 ([], (0, 0))) ⟨none, none, none⟩).1.model_x
      = some ⟨((List.replicate 6 (([], (0, 0)) : List ℚ × (ℚ × ℚ))).map Prod.fst).map
                (scalerTransform (fitScaler ratSqrt
                  ((List.replicate 6 (([], (0, 0)) : List ℚ × (ℚ × ℚ))).map Prod.fst))),
              (List.replicate 6 (([], (0, 0)) : List ℚ × (ℚ × ℚ))).map (fun d => d.2.1)⟩ := by
  have h := C3_six_point_samples_fit_five_fail ratSqrt ⟨none, none, none⟩
      (List.replicate 5 ([], (0, 0))) (List.replicate 6 ([], (0, 0)))
      (by simp) (by simp)
  exact ⟨h.1, h.2.1, h.2.2.1⟩

/-- Claim C4, counterexample.  A target for which exactly 10 valid frames
were collected is marked failed and contributes no sample, contrary to the
claim that 10 frames suffice: the source requires strictly more than 10. -/
theorem C4_exactly_ten_frames_no_sample :
    (List.replicate 10 ([1] : List ℚ)).length = 10 ∧
    processPoint (List.replicate 10 ([1] : List ℚ)) = none := by
  refine ⟨by simp, ?_⟩
  simp [processPoint]

/-- Claim C4, amended.  A calibration target is marked failed and contributes
no sample exactly when at most 10 valid frames were collected; equivalently a
sample is produced exactly when strictly more than 10 (at least 11) valid
frames were collected. -/
theorem C4_sample_iff_more_than_ten_frames (point_data : List (List ℚ)) :
    processPoint point_data = none ↔ point_data.length ≤ 10 := by
  constructor
  · intro hnone
    by_contra hgt
    have h : point_data.length > 10 := by omega
    simp [processPoint, h] at hnone
  · intro hle
    have h : ¬(point_data.length > 10) := by omega
    simp [processPoint, h]

/-- Claim C4, witness: with 11 collected frames the target does produce a
sample. -/
theorem C4_sample_iff_more_than_ten_frames_witness :
    ¬(processPoint (List.replicate 11 ([1] : List ℚ)) = none) := by
  rw [C4_sample_iff_more_than_ten_frames]
  simp

/-- Claim C5.  On a 1920 x 1080 screen with the default target count of 100,
the generated calibration grid contains the target (192, 1824), whose
y-coordinate 1824 exceeds the screen height 1080: the last entry of the
y_points list is computed from the screen width (0.95 * 1920), not the screen
height, so not every target is a fraction of the screen height within
bounds. -/
theorem C5_last_grid_row_off_screen :
    ((192 : Int), (1824 : Int)) ∈ calibration_points 1920 1080 100 ∧
    (1080 : Int) < 1824 ∧
    (y_points 1920 1080).getD 9 0 = 1920 * 0.95 := by
  refine ⟨?_, by norm_num, rfl⟩
  have hfull : calibration_points 1920 1080 100
      = (x_points 1920).flatMap (fun x => (y_points 1920 1080).map (fun y => (pyInt x, pyInt y))) := by
    rw [calibration_points]
    apply List.take_of_length_le
    simp [x_points, y_points]
  rw [hfull]
  refine List.mem_flatMap.mpr ⟨1920 * 0.1, by simp [x_points], ?_⟩
  refine List.mem_map.mpr ⟨1920 * 0.95, by simp [y_points], ?_⟩
  have h1 : pyInt (1920 * 0.1) = 192 := by
    norm_num [pyInt]
  have h2 : pyInt (1920 * 0.95) = 1824 := by
    norm_num [pyInt]
  rw [h1, h2]

/-- Claim C6, counterexample.  For an off-screen raw prediction (x = -100 on
a 1920 x 1080 screen) the normalized edge distance is negative, not in
[0, 1], the effective smoothing coefficient is negative, not in
[0, smoothing_factor], and the smoothed output (-150) even overshoots the raw
input: the source applies no clamping. -/
theorem C6_offscreen_prediction_negative_smoothing :
    edge_distance 1920 1080 (-100) 500 = -5 / 48 ∧
    edge_distance 1920 1080 (-100) 500 < 0 ∧
    (0.8 : ℚ) * edge_distance 1920 1080 (-100) 500 < 0 ∧
    (smooth_movement 1920 1080 0.8 (some (500, 500)) (-100) 500).1.1 = -150 ∧
    (smooth_movement 1920 1080 0.8 (some (500, 500)) (-100) 500).1.1 < -100 := by
  have hed : edge_distance 1920 1080 (-100) 500 = -5 / 48 := by
    norm_num [edge_distance, min_def]
  refine ⟨hed, by rw [hed]; norm_num, by rw [hed]; norm_num, ?_, ?_⟩ <;>
    norm_num [smooth_movement, hed]

/-- Claim C6, amended.  On every non-first call whose raw prediction lies
within the screen rectangle, the normalized edge distance lies in [0, 1], the
effective smoothing coefficient lies in [0, smoothing_factor], and the output
per axis equals previous * effective + raw * (1 - effective); the source has
no clamp, so the [0, 1] bound fails for off-screen raw predictions. -/
theorem C6_onscreen_edge_distance_bounds (w h sf prev_x prev_y x_pred y_pred : ℚ)
    (hw : 0 < w) (hh : 0 < h) (hsf : 0 ≤ sf)
    (hx0 : 0 ≤ x_pred) (hxw : x_pred ≤ w) (hy0 : 0 ≤ y_pred) (hyh : y_pred ≤ h) :
    0 ≤ edge_distance w h x_pred y_pred ∧
    edge_distance w h x_pred y_pred ≤ 1 ∧
    0 ≤ sf * edge_distance w h x_pred y_pred ∧
    sf * edge_distance w h x_pred y_pred ≤ sf ∧
    (smooth_movement w h sf (some (prev_x, prev_y)) x_pred y_pred).1.1
      = prev_x * (sf * edge_distance w h x_pred y_pred)
        + x_pred * (1 - sf * edge_distance w h x_pred y_pred) ∧
    (smooth_movement w h sf (some (prev_x, prev_y)) x_pred y_pred).1.2
      = prev_y * (sf * edge_distance w h x_pred y_pred)
        + y_pred * (1 - sf * edge_distance w h x_pred y_pred) := by
  have hw2 : (0 : ℚ) < w / 2 := by linarith
  have hh2 : (0 : ℚ) < h / 2 := by linarith
  have hex0 : 0 ≤ min x_pred (w - x_pred) := le_min hx0 (by linarith)
  have hey0 : 0 ≤ min y_pred (h - y_pred) := le_min hy0 (by linarith)
  have hex1 : min x_pred (w - x_pred) ≤ w / 2 := by
    rcases le_total x_pred (w - x_pred) with hc | hc
    · rw [min_eq_left hc]; linarith
    · rw [min_eq_right hc]; linarith
  have hey1 : min y_pred (h - y_pred) ≤ h / 2 := by
    rcases le_total y_pred (h - y_pred) with hc | hc
    · rw [min_eq_left hc]; linarith
    · rw [min_eq_right hc]; linarith
  have hedx0 : 0 ≤ min x_pred (w - x_pred) / (w / 2) := div_nonneg hex0 hw2.le
  have hedy0 : 0 ≤ min y_pred (h - y_pred) / (h / 2) := div_nonneg hey0 hh2.le
  have hedx1 : min x_pred (w - x_pred) / (w / 2) ≤ 1 := (div_le_one hw2).mpr hex1
  have hed0 : 0 ≤ edge_distance w h x_pred y_pred := le_min hedx0 hedy0
  have hed1 : edge_distance w h x_pred y_pred ≤ 1 :=
    (min_le_left _ _).trans hedx1
  exact ⟨hed0, hed1, mul_nonneg hsf hed0, mul_le_of_le_one_right hsf hed1, rfl, rfl⟩

/-- Claim C6, witness: the bounds theorem applied at the screen center of a
1920 x 1080 screen with the default smoothing factor 0.8. -/
theorem C6_onscreen_edge_distance_bounds_witness :
    0 ≤ edge_distance 1920 1080 960 540 ∧
    edge_distance 1920 1080 960 540 ≤ 1 ∧
    (0.8 : ℚ) * edge_distance 1920 1080 960 540 ≤ 0.8 ∧
    (smooth_movement 1920 1080 0.8 (some (100, 200)) 960 540).1.1
      = 100 * (0.8 * edge_distance 1920 1080 960 540)
        + 960 * (1 - 0.8 * edge_distance 1920 1080 960 540) := by
  have h := C6_onscreen_edge_distance_bounds 1920 1080 0.8 100 200 960 540
    (by norm_num) (by norm_num) (by norm_num) (by norm_num) (by norm_num)
    (by norm_num) (by norm_num)
  exact ⟨h.1, h.2.1, h.2.2.2.1, h.2.2.2.2.1⟩

/-- Claim C7.  On a blink end that passes the cooldown gate, the emitted
event class is determined by the duration with the exact boundaries of the
source: duration < 0.3 gives the short class (click in cursor and click
modes, drag_toggle in drag mode, nothing in scroll mode); 0.3 <= duration <
long_blink_threshold gives the medium class (right_click exactly in cursor
and click modes); duration >= long_blink_threshold gives the mode switch.
The hypothesis 0.3 <= long_blink_threshold holds for the default 1.0. -/
theorem C7_blink_duration_boundaries (st : BlinkState) (t l r s : ℚ)
    (hstart : st.blink_start_time = some s)
    (hblk : isBlinkOf st ((l + r) / 2) (newHistory st ((l + r) / 2)) = false)
    (hcool : st.blink_cooldown < t - st.last_blink_time)
    (hlbt : (0.3 : ℚ) ≤ st.long_blink_threshold) :
    (t - s < 0.3 →
      ((st.mode = .cursor ∨ st.mode = .click → (handle_blink st t l r).1 = some .click) ∧
       (st.mode = .drag → (handle_blink st t l r).1 = some .drag_toggle) ∧
       (st.mode = .scroll → (handle_blink st t l r).1 = none))) ∧
    (0.3 ≤ t - s → t - s < st.long_blink_threshold →
      (handle_blink st t l r).1
        = if st.mode = .cursor ∨ st.mode = .click then some .right_click else none) ∧
    (st.long_blink_threshold ≤ t - s →
      (handle_blink st t l r).1 = some (.mode_switch (next_mode st.mode))) := by
  simp only [handle_blink, hblk, hstart, hcool]
  simp only [Bool.false_eq_true, false_and, if_false, if_pos, if_true, reduceIte]
  refine ⟨?_, ?_, ?_⟩
  · intro hd
    refine ⟨?_, ?_, ?_⟩ <;> intro hm
    · rcases hm with hm | hm <;> simp [hd, hm]
    · simp [hd, hm]
    · simp [hd, hm]
  · intro h1 h2
    have hnd : ¬(t - s < 0.3) := by linarith
    have hmed : (0.3 : ℚ) ≤ t - s ∧ t - s < st.long_blink_threshold := ⟨h1, h2⟩
    simp only [hnd, if_false, hmed, if_true, reduceIte]
    cases hm : st.mode <;> simp [hm]
  · intro h1
    have hnd : ¬(t - s < 0.3) := by linarith
    have hnm : ¬((0.3 : ℚ) ≤ t - s ∧ t - s < st.long_blink_threshold) := by
      rintro ⟨_, hcon⟩
      linarith
    simp [hnd, hnm]

/-- Claim C7, witness: a blink of duration exactly 0.3 seconds ending at time
10.3 in cursor mode with the default configuration emits right_click. -/
theorem C7_blink_duration_boundaries_witness :
    (handle_blink stW (103 / 10) (1 / 2) (1 / 2)).1 = some .right_click := by
  have hblk : isBlinkOf stW ((1 / 2 + 1 / 2) / 2) (newHistory stW ((1 / 2 + 1 / 2) / 2)) = false := by
    norm_num [isBlinkOf, stW, newHistory]
  have h := C7_blink_duration_boundaries stW (103 / 10) (1 / 2) (1 / 2) 10 rfl hblk
    (by norm_num [stW]) (by norm_num [stW])
  have h2 := h.2.1 (by norm_num) (by norm_num [stW])
  simpa [stW] using h2

/-- Claim C8, counterexample.  In drag mode: a medium blink ends at time 10
and emits no event (medium blinks emit nothing outside cursor and click
modes), yet last_blink_time is advanced to 10; a short blink then ends at
time 10.03, within the 0.05 cooldown of that event-free transition, and its
drag_toggle is suppressed, although no event was ever emitted.  With
last_blink_time left at its prior value 0, the same final transition emits
drag_toggle, showing the suppression depends on the event-free transition. -/
theorem C8_cooldown_reference_updated_without_event :
    handle_blink st8a 10 (1 / 2) (1 / 2) = (none, st8b) ∧
    handle_blink st8b (1001 / 100) (1 / 10) (1 / 10) = (none, st8c) ∧
    (handle_blink st8c (1003 / 100) (1 / 2) (1 / 2)).1 = none ∧
    (handle_blink st8c (1003 / 100) (1 / 2) (1 / 2)).2.blink_start_time = none ∧
    (handle_blink { st8c with last_blink_time := 0 } (1003 / 100) (1 / 2) (1 / 2)).1
      = some .drag_toggle := by
  norm_num [handle_blink, isBlinkOf, newHistory, st8a, st8b, st8c, BlinkState.mk.injEq]

/-- Claim C8, amended.  On every blink-end transition the blinking state is
cleared unconditionally; event emission is attempted exactly when the time
since last_blink_time exceeds the cooldown, and that reference time is then
advanced to the current time whether or not an event is emitted, so the
cooldown is measured from the last transition that passed the gate, not from
the last accepted event, and elapsed time exactly equal to the cooldown still
suppresses. -/
theorem C8_blink_end_clears_state_and_cooldown_gate (st : BlinkState) (t l r s : ℚ)
    (hstart : st.blink_start_time = some s)
    (hblk : isBlinkOf st ((l + r) / 2) (newHistory st ((l + r) / 2)) = false) :
    (handle_blink st t l r).2.blink_start_time = none ∧
    (t - st.last_blink_time ≤ st.blink_cooldown →
      (handle_blink st t l r).1 = none ∧
      (handle_blink st t l r).2.last_blink_time = st.last_blink_time) ∧
    (st.blink_cooldown < t - st.last_blink_time →
      (handle_blink st t l r).2.last_blink_time = t) := by
  simp only [handle_blink, hblk, hstart]
  simp only [Bool.false_eq_true, false_and, if_false, reduceIte]
  by_cases hc : st.blink_cooldown < t - st.last_blink_time
  · simp only [hc, if_true, reduceIte]
    refine ⟨?_, fun hcon => absurd hc (by linarith), fun _ => ?_⟩ <;>
    · by_cases hd : t - s < 0.3
      · simp only [hd, reduceIte]
        cases hmm : st.mode <;> simp
      · simp only [hd, reduceIte]
        by_cases hmed : (0.3 : ℚ) ≤ t - s ∧ t - s < st.long_blink_threshold
        · simp only [hmed, reduceIte]
          cases hmm : st.mode <;> simp
        · simp only [hmed, reduceIte]
          try simp
  · rw [if_neg hc]
    exact ⟨rfl, fun _ => ⟨rfl, rfl⟩, fun hcon => absurd hcon hc⟩

/-- Claim C8, witness: the amended theorem at a concrete blink end that
passes the cooldown gate (state cleared, reference time advanced). -/
theorem C8_blink_end_clears_state_and_cooldown_gate_witness :
    (handle_blink stW (103 / 10) (1 / 2) (1 / 2)).2.blink_start_time = none ∧
    (handle_blink stW (103 / 10) (1 / 2) (1 / 2)).2.last_blink_time = 103 / 10 := by
  have hblk : isBlinkOf stW ((1 / 2 + 1 / 2) / 2) (newHistory stW ((1 / 2 + 1 / 2) / 2)) = false := by
    norm_num [isBlinkOf, stW, newHistory]
  have h := C8_blink_end_clears_state_and_cooldown_gate stW (103 / 10) (1 / 2) (1 / 2) 10 rfl hblk
  exact ⟨h.1, h.2.2 (by norm_num [stW])⟩

/-- Claim C9.  In relative blink mode the rolling average-EAR history never
exceeds its capacity of 30 and on overflow evicts exactly the oldest entry;
while the updated history holds fewer than 10 samples the blink signal is
false regardless of the EAR value (and an idle handler stays idle and emits
nothing); from 10 samples on, the signal compares the average EAR against
the 80th percentile of the history scaled by (1 - relative threshold). -/
theorem C9_relative_history_capacity_and_eligibility (st : BlinkState) (t l r : ℚ)
    (hrel : st.blink_relative_mode = true) (hcap : st.ear_history.length ≤ 30) :
    (handle_blink st t l r).2.ear_history = updateHistory st.ear_history ((l + r) / 2) ∧
    (handle_blink st t l r).2.ear_history.length ≤ 30 ∧
    (st.ear_history.length = 30 →
      (handle_blink st t l r).2.ear_history = st.ear_history.drop 1 ++ [(l + r) / 2]) ∧
    ((updateHistory st.ear_history ((l + r) / 2)).length < 10 →
      isBlinkOf st ((l + r) / 2) (updateHistory st.ear_history ((l + r) / 2)) = false) ∧
    (10 ≤ (updateHistory st.ear_history ((l + r) / 2)).length →
      (isBlinkOf st ((l + r) / 2) (updateHistory st.ear_history ((l + r) / 2)) = true ↔
        (l + r) / 2 < percentile80 (updateHistory st.ear_history ((l + r) / 2))
          * (1 - st.blink_relative_threshold))) ∧
    ((updateHistory st.ear_history ((l + r) / 2)).length < 10 → st.blink_start_time = none →
      (handle_blink st t l r).1 = none ∧ (handle_blink st t l r).2.blink_start_time = none) := by
  have hnew : newHistory st ((l + r) / 2) = updateHistory st.ear_history ((l + r) / 2) := by
    simp [newHistory, hrel]
  have hhist := handle_blink_ear_history st t l r
  rw [hnew] at hhist
  have hfalse : (updateHistory st.ear_history ((l + r) / 2)).length < 10 →
      isBlinkOf st ((l + r) / 2) (updateHistory st.ear_history ((l + r) / 2)) = false := by
    intro hlt
    simp only [isBlinkOf, hrel, if_true, reduceIte]
    rw [if_neg (by omega)]
  refine ⟨hhist, ?_, ?_, hfalse, ?_, ?_⟩
  · rw [hhist]
    exact updateHistory_length_le _ _ hcap
  · intro h30
    rw [hhist, updateHistory_overflow _ _ h30]
  · intro hge
    simp only [isBlinkOf, hrel, if_true, reduceIte]
    rw [if_pos hge]
    simp
  · intro hlt hstart
    have hbf := hfalse hlt
    rw [← hnew] at hbf
    simp [handle_blink, hbf, hstart]

/-- Claim C9, witness: the theorem applied to a relative-mode state whose
history is full (30 entries), showing the capacity bound and the eviction of
the oldest entry on this call. -/
theorem C9_relative_history_capacity_and_eligibility_witness :
    (handle_blink st9 1 (3 / 10) (3 / 10)).2.ear_history
      = updateHistory st9.ear_history ((3 / 10 + 3 / 10) / 2) ∧
    (handle_blink st9 1 (3 / 10) (3 / 10)).2.ear_history.length ≤ 30 ∧
    (handle_blink st9 1 (3 / 10) (3 / 10)).2.ear_history
      = st9.ear_history.drop 1 ++ [(3 / 10 + 3 / 10) / 2] := by
  have h := C9_relative_history_capacity_and_eligibility st9 1 (3 / 10) (3 / 10) rfl
    (by simp [st9])
  exact ⟨h.1, h.2.1, h.2.2.1 (by simp [st9])⟩

/-- Claim C10, counterexample.  On a screen of height 1000, the vertical
positions 300 and 290 both lie strictly above the deadzone (normalized 0.30
and 0.29 against the 0.35 edge) yet both produce scroll amount 0 because of
the int() truncation, so the amount just outside the deadzone is not
positive, and the magnitude does not strictly increase with the distance from
the deadzone edge. -/
theorem C10_truncation_zero_outside_deadzone :
    handle_scroll .scroll 1000 300 = 0 ∧
    (300 : ℚ) / 1000 < 0.5 - 0.3 / 2 ∧
    handle_scroll .scroll 1000 290 = 0 ∧
    (0.5 - 0.3 / 2) - (290 : ℚ) / 1000 > (0.5 - 0.3 / 2) - (300 : ℚ) / 1000 := by
  norm_num [handle_scroll, pyInt]

/-- Claim C10, amended.  In scroll mode: inside the deadzone (the band of
fractional width 0.3 centered on mid-height, boundaries included) the amount
is 0; above the deadzone it equals the integer truncation of 10 times the
normalized distance past the edge, is nonnegative, and is nonzero exactly
when that distance reaches 0.1; below the deadzone it is the negated
truncation and nonpositive; and the magnitude is weakly (not strictly)
monotone in the distance from the edge. -/
theorem C10_scroll_deadzone_sign_and_monotonicity (hgt y ylo yhi : ℚ) (_hpos : 0 < hgt) :
    ((0.5 - 0.3 / 2 : ℚ) ≤ y / hgt → y / hgt ≤ 0.5 + 0.3 / 2 →
      handle_scroll .scroll hgt y = 0) ∧
    (y / hgt < 0.5 - 0.3 / 2 →
      handle_scroll .scroll hgt y = Int.floor ((10 : ℚ) * ((0.5 - 0.3 / 2) - y / hgt)) ∧
      0 ≤ handle_scroll .scroll hgt y ∧
      (1 ≤ handle_scroll .scroll hgt y ↔ (0.1 : ℚ) ≤ (0.5 - 0.3 / 2) - y / hgt)) ∧
    (0.5 + 0.3 / 2 < y / hgt →
      handle_scroll .scroll hgt y = -Int.floor ((10 : ℚ) * (y / hgt - (0.5 + 0.3 / 2))) ∧
      handle_scroll .scroll hgt y ≤ 0) ∧
    (ylo / hgt ≤ y / hgt → y / hgt < 0.5 - 0.3 / 2 →
      handle_scroll .scroll hgt y ≤ handle_scroll .scroll hgt ylo) ∧
    (0.5 + 0.3 / 2 < y / hgt → y / hgt ≤ yhi / hgt →
      handle_scroll .scroll hgt yhi ≤ handle_scroll .scroll hgt y) := by
  have habove : ∀ z : ℚ, z / hgt < 0.5 - 0.3 / 2 →
      handle_scroll .scroll hgt z = Int.floor ((10 : ℚ) * ((0.5 - 0.3 / 2) - z / hgt)) := by
    intro z hz
    simp only [handle_scroll]
    rw [if_pos trivial, if_pos hz]
    have he : (20 : ℚ) * ((0.5 - 0.3 / 2) - z / hgt) * 0.5
        = 10 * ((0.5 - 0.3 / 2) - z / hgt) := by ring
    rw [he, pyInt, if_pos (by nlinarith)]
  have hbelow : ∀ z : ℚ, 0.5 + 0.3 / 2 < z / hgt →
      handle_scroll .scroll hgt z = -Int.floor ((10 : ℚ) * (z / hgt - (0.5 + 0.3 / 2))) := by
    intro z hz
    simp only [handle_scroll]
    rw [if_pos trivial, if_neg (by linarith), if_pos hz]
    have he : (-20 : ℚ) * (z / hgt - (0.5 + 0.3 / 2)) * 0.5
        = -((10 : ℚ) * (z / hgt - (0.5 + 0.3 / 2))) := by ring
    rw [he, pyInt, if_neg (by nlinarith), Int.ceil_neg]
  refine ⟨?_, ?_, ?_, ?_, ?_⟩
  · intro h1 h2
    simp only [handle_scroll]
    rw [if_pos trivial, if_neg (by linarith), if_neg (by linarith)]
  · intro hz
    have he := habove y hz
    refine ⟨he, ?_, ?_⟩
    · rw [he]
      exact Int.floor_nonneg.mpr (by nlinarith)
    · rw [he, Int.le_floor]
      constructor <;> intro hq
      · push_cast at hq ⊢
        linarith
      · push_cast at hq ⊢
        linarith
  · intro hz
    have he := hbelow y hz
    refine ⟨he, ?_⟩
    rw [he]
    have : (0 : ℤ) ≤ Int.floor ((10 : ℚ) * (y / hgt - (0.5 + 0.3 / 2))) :=
      Int.floor_nonneg.mpr (by nlinarith)
    omega
  · intro hle hz
    have hzlo : ylo / hgt < 0.5 - 0.3 / 2 := lt_of_le_of_lt hle hz
    rw [habove y hz, habove ylo hzlo]
    exact Int.floor_le_floor (by nlinarith)
  · intro hz hle
    have hzhi : 0.5 + 0.3 / 2 < yhi / hgt := lt_of_lt_of_le hz hle
    rw [hbelow y hz, hbelow yhi hzhi]
    have := Int.floor_le_floor (α := ℚ)
      (show (10 : ℚ) * (y / hgt - (0.5 + 0.3 / 2)) ≤ 10 * (yhi / hgt - (0.5 + 0.3 / 2)) by nlinarith)
    omega

/-- Claim C10, witness: on a screen of height 1000 the position 50 (5 percent
of the height) lies above the deadzone, its amount is the truncation of
10 * 0.3, nonnegative, and nonzero since the distance 0.3 reaches 0.1. -/
theorem C10_scroll_deadzone_sign_and_monotonicity_witness :
    handle_scroll .scroll 1000 50 = Int.floor ((10 : ℚ) * ((0.5 - 0.3 / 2) - 50 / 1000)) ∧
    0 ≤ handle_scroll .scroll 1000 50 ∧
    (1 ≤ handle_scroll .scroll 1000 50 ↔ (0.1 : ℚ) ≤ (0.5 - 0.3 / 2) - 50 / 1000) := by
  have h := C10_scroll_deadzone_sign_and_monotonicity 1000 50 40 990 (by norm_num)
  exact h.2.1 (by norm_num)

end EyeCursor
